import Mathlib

/-!
Shallow embedding of the normalization and display-derivation pipeline of
`src/listen/types.py` (the LISTEN.tui data model).

Conventions of the embedding:
  * Python strings are `List Char`; `None` is `Option.none`.
  * A raw JSON record is a structure of `Option` fields: `none` means the key
    is absent from the dict, `some v` means the key is present with value `v`.
  * Python truthiness of an optional string/list (`if not x`) is
    `optListTruthy`: `none` and the empty string/list are falsy.
  * Fallible code (KeyError from `d['k']`, TypeError from `len(None)`)
    returns `Except PyErr`.
  * The wall-clock reading `time()` is passed in explicitly as a rational
    `now`; Python's `round` (banker's rounding) is `pyRound`.
  * The derived `link` fields that the dataclasses compute in
    `__post_init__` from the immutable `id` are modeled as derived accessors.
-/

/-- U+3099 combining katakana-hiragana voiced sound mark. -/
def combVoiced : Char := '\u3099'

/-- U+309A combining katakana-hiragana semi-voiced sound mark. -/
def combSemi : Char := '\u309A'

/-- U+309B spacing katakana-hiragana voiced sound mark. -/
def spacingVoiced : Char := '\u309B'

/-- U+309C spacing katakana-hiragana semi-voiced sound mark. -/
def spacingSemi : Char := '\u309C'

/-- U+200B zero width space. -/
def zwsp : Char := '\u200B'

/-- Python `s.replace(a, b)` for single characters. -/
def pyReplace (a b : Char) (s : List Char) : List Char :=
  s.map fun c => if c = a then b else c

/-- Python `s.replace(a, '')` for a single character: drop all occurrences. -/
def pyRemove (a : Char) (s : List Char) : List Char :=
  s.filter fun c => c != a

/-- Python truthiness of an optional string or list: `None` and empty are falsy. -/
def optListTruthy : Option (List α) → Bool
  | none => false
  | some l => !l.isEmpty

/-- Python `sep.join(parts)`. -/
def joinSep (sep : List Char) : List (List Char) → List Char
  | [] => []
  | [x] => x
  | x :: y :: rest => x ++ sep ++ joinSep sep (y :: rest)

/-- `if name: lst_string.append(name)` — append a resolved name when truthy. -/
def appendIfTruthy (acc : List (List Char)) (name : Option (List Char)) :
    List (List Char) :=
  match name with
  | some s => if s = [] then acc else acc ++ [s]
  | none => acc

/-- The name-resolution expression that `types.py` inlines identically at
lines 227-230 (`_list_to_string`), 248-251 (artists in `artists_to_string`)
and 256-259 (characters in `artists_to_string`):
`name_romaji if name_romaji else name` when `romaji_first`, else `name`. -/
def resolveName (romajiFirst : Bool) (name name_romaji : Option (List Char)) :
    Option (List Char) :=
  if romajiFirst then (if optListTruthy name_romaji then name_romaji else name)
  else name

/-- Python `round` on a rational: round half to even (banker's rounding). -/
def pyRound (x : ℚ) : Int :=
  if x - (Int.floor x : ℚ) < 1/2 then Int.floor x
  else if 1/2 < x - (Int.floor x : ℚ) then Int.floor x + 1
  else if Int.floor x % 2 = 0 then Int.floor x else Int.floor x + 1

/-- The error kinds raised by the normalizer: `KeyError` on a missing dict key
(the MissingField error of the spec) and `TypeError` (from `len(None)`). -/
inductive PyErr where
  | keyError : List Char → PyErr
  | typeError : PyErr
  deriving DecidableEq

/-- Decidable equality for `Except`, needed to evaluate the normalizer's
results in concrete theorems. -/
instance [DecidableEq e] [DecidableEq a] : DecidableEq (Except e a) := fun x y =>
  match x, y with
  | .ok v, .ok w =>
    if h : v = w then isTrue (by rw [h]) else isFalse (fun hc => h (Except.ok.inj hc))
  | .error v, .error w =>
    if h : v = w then isTrue (by rw [h]) else isFalse (fun hc => h (Except.error.inj hc))
  | .ok _, .error _ => isFalse (fun hc => Except.noConfusion hc)
  | .error _, .ok _ => isFalse (fun hc => Except.noConfusion hc)

/-- The dict key `'id'`. -/
def keyId : List Char := "id".data

/-- `Link` dataclass: a display name and an absolute URL. -/
structure Link where
  name : List Char
  url : List Char
  deriving DecidableEq

/-- The `Literal['albums', 'artists', 'sources']` kind tag of `Link.from_name`. -/
inductive LinkKind where
  | albums
  | artists
  | sources
  deriving DecidableEq

/-- The CDN host `https://cdn.listen.moe`. -/
def cdnChars : List Char := "https://cdn.listen.moe".data

/-- `Link.from_name`: absent for falsy input (None or empty), else the value
as display name with the per-kind CDN URL template. -/
def Link.from_name (kind : LinkKind) (value : Option (List Char)) : Option Link :=
  match value with
  | none => none
  | some v =>
    if v = [] then none
    else
      some { name := v,
             url := cdnChars ++ (match kind with
               | .albums => "/covers/".data
               | .artists => "/artists/".data
               | .sources => "/source/".data) ++ v }

/-- `Album` dataclass (the derived `link` is the accessor `Album.link`). -/
structure Album where
  id : Int
  name : Option (List Char)
  name_romaji : Option (List Char)
  image : Option Link
  deriving DecidableEq

/-- `Character` dataclass. -/
structure Character where
  id : Int
  name : Option (List Char) := none
  name_romaji : Option (List Char) := none
  deriving DecidableEq

/-- `Artist` dataclass. -/
structure Artist where
  id : Int
  name : Option (List Char)
  name_romaji : Option (List Char)
  image : Option Link
  character : Option (List Character)
  deriving DecidableEq

/-- `Source` dataclass. -/
structure Source where
  id : Int
  name : Option (List Char)
  name_romaji : Option (List Char)
  image : Option Link
  deriving DecidableEq

/-- The site host `https://listen.moe/`. -/
def siteChars : List Char := "https://listen.moe/".data

/-- Derived `link` field of `Album` (set in `__post_init__` from the id). -/
def Album.link (a : Album) : List Char :=
  siteChars ++ "albums/".data ++ (toString a.id).data

/-- Derived `link` field of `Artist` (set in `__post_init__` from the id). -/
def Artist.link (a : Artist) : List Char :=
  siteChars ++ "artists/".data ++ (toString a.id).data

/-- Derived `link` field of `Character` (set in `__post_init__` from the id). -/
def Character.link (c : Character) : List Char :=
  siteChars ++ "characters/".data ++ (toString c.id).data

/-- Derived `link` field of `Source` (set in `__post_init__` from the id). -/
def Source.link (s : Source) : List Char :=
  siteChars ++ "sources/".data ++ (toString s.id).data

/-- `Song` dataclass. -/
structure Song where
  id : Int
  title : Option (List Char)
  sources : Option (List Source)
  artists : Option (List Artist)
  characters : Option (List Character)
  albums : Option (List Album)
  duration : Option Int
  time_end : Int
  played : Option Int := none
  title_romaji : Option (List Char) := none
  deriving DecidableEq

/-- A raw character sub-record (keys `id`, `name`, `nameRomaji`). -/
structure RawCharacter where
  id : Option Int := none
  name : Option (List Char) := none
  nameRomaji : Option (List Char) := none
  deriving DecidableEq

/-- A raw artist sub-record (keys `id`, `name`, `nameRomaji`, `image`,
`characters`). -/
structure RawArtist where
  id : Option Int := none
  name : Option (List Char) := none
  nameRomaji : Option (List Char) := none
  image : Option (List Char) := none
  characters : Option (List RawCharacter) := none
  deriving DecidableEq

/-- A raw source sub-record. -/
structure RawSource where
  id : Option Int := none
  name : Option (List Char) := none
  nameRomaji : Option (List Char) := none
  image : Option (List Char) := none
  deriving DecidableEq

/-- A raw album sub-record. -/
structure RawAlbum where
  id : Option Int := none
  name : Option (List Char) := none
  nameRomaji : Option (List Char) := none
  image : Option (List Char) := none
  deriving DecidableEq

/-- A raw song record as passed to `Song.from_data`. -/
structure RawSong where
  id : Option Int := none
  title : Option (List Char) := none
  titleRomaji : Option (List Char) := none
  duration : Option Int := none
  played : Option Int := none
  sources : Option (List RawSource) := none
  artists : Option (List RawArtist) := none
  albums : Option (List RawAlbum) := none
  characters : Option (List RawCharacter) := none
  deriving DecidableEq

/-- `Song._sanitise`: `None` and the empty string map to `None` (truthiness
check `if not word`); otherwise replace U+3099 with U+309B, then U+309A with
U+309C, then remove all U+200B. -/
def Song.sanitise (word : Option (List Char)) : Option (List Char) :=
  match word with
  | none => none
  | some w =>
    if w = [] then none
    else some (pyRemove zwsp (pyReplace combSemi spacingSemi
      (pyReplace combVoiced spacingVoiced w)))

/-- `Song._get_title`: falsy titles (absent or empty) pass through, truthy
titles are sanitised. -/
def Song.get_title (song : RawSong) : Option (List Char) :=
  match song.title with
  | none => none
  | some t => if t = [] then some t else Song.sanitise (some t)

/-- Evaluate `f` over a list left to right, stopping at the first error
(the semantics of a Python list comprehension whose body can raise). -/
def mapE (f : α → Except PyErr β) : List α → Except PyErr (List β)
  | [] => .ok []
  | x :: xs =>
    match f x with
    | .error e => .error e
    | .ok y =>
      match mapE f xs with
      | .error e => .error e
      | .ok ys => .ok (y :: ys)

/-- Build one `Source` from a raw source: `source['id']` raises KeyError when
absent; the name is sanitised, the romanized name is carried raw. -/
def mkSource (s : RawSource) : Except PyErr Source :=
  match s.id with
  | none => .error (.keyError keyId)
  | some i =>
    .ok { id := i, name := Song.sanitise s.name, name_romaji := s.nameRomaji,
          image := Link.from_name .sources s.image }

/-- `Song._get_sources`: falsy (absent or empty) list yields `none`. -/
def Song.get_sources (song : RawSong) : Except PyErr (Option (List Source)) :=
  match song.sources with
  | none => .ok none
  | some l =>
    if l = [] then .ok none
    else
      match mapE mkSource l with
      | .error e => .error e
      | .ok xs => .ok (some xs)

/-- `Character(character['id'])` placeholder built inside `_get_artists`:
only the id, raising KeyError when the raw character lacks it. -/
def mkPlaceholder (c : RawCharacter) : Except PyErr Character :=
  match c.id with
  | none => .error (.keyError keyId)
  | some i => .ok { id := i }

/-- Build one `Artist` from a raw artist.  `artist['id']` raises KeyError when
absent.  The `character=` argument evaluates
`len(artist.get('characters')) != 0` first: when the `characters` key is
absent, `artist.get('characters')` is `None` and `len(None)` raises
TypeError. -/
def mkArtist (a : RawArtist) : Except PyErr Artist :=
  match a.id with
  | none => .error (.keyError keyId)
  | some i =>
    let name := Song.sanitise a.name
    let name_romaji := Song.sanitise a.nameRomaji
    let image := Link.from_name .artists a.image
    match a.characters with
    | none => .error PyErr.typeError
    | some cs =>
      if cs.length ≠ 0 then
        match mapE mkPlaceholder cs with
        | .error e => .error e
        | .ok ph =>
          .ok { id := i, name := name, name_romaji := name_romaji,
                image := image, character := some ph }
      else
        .ok { id := i, name := name, name_romaji := name_romaji,
              image := image, character := none }

/-- `Song._get_artists`: falsy (absent or empty) list yields `none`. -/
def Song.get_artists (song : RawSong) : Except PyErr (Option (List Artist)) :=
  match song.artists with
  | none => .ok none
  | some l =>
    if l = [] then .ok none
    else
      match mapE mkArtist l with
      | .error e => .error e
      | .ok xs => .ok (some xs)

/-- Build one `Album` from a raw album: both names sanitised. -/
def mkAlbum (a : RawAlbum) : Except PyErr Album :=
  match a.id with
  | none => .error (.keyError keyId)
  | some i =>
    .ok { id := i, name := Song.sanitise a.name,
          name_romaji := Song.sanitise a.nameRomaji,
          image := Link.from_name .albums a.image }

/-- `Song._get_albums`: falsy (absent or empty) list yields `none`. -/
def Song.get_albums (song : RawSong) : Except PyErr (Option (List Album)) :=
  match song.albums with
  | none => .ok none
  | some l =>
    if l = [] then .ok none
    else
      match mapE mkAlbum l with
      | .error e => .error e
      | .ok xs => .ok (some xs)

/-- Build one `Character` from a raw character: both names sanitised. -/
def mkCharacter (c : RawCharacter) : Except PyErr Character :=
  match c.id with
  | none => .error (.keyError keyId)
  | some i =>
    .ok { id := i, name := Song.sanitise c.name,
          name_romaji := Song.sanitise c.nameRomaji }

/-- `Song._get_characters`: falsy (absent or empty) list yields `none`. -/
def Song.get_characters (song : RawSong) :
    Except PyErr (Option (List Character)) :=
  match song.characters with
  | none => .ok none
  | some l =>
    if l = [] then .ok none
    else
      match mapE mkCharacter l with
      | .error e => .error e
      | .ok xs => .ok (some xs)

/-- `Song.from_data` at wall-clock time `now`.  Mirrors the source's
evaluation order: `data['id']` first (KeyError when absent), then the
sub-entity builders for sources, artists, albums, characters in this order.
`time_end` is `round(time() + duration) if duration else round(time())`
(truthiness: a present duration of 0 takes the else branch); `played` and
`titleRomaji` are attached only when truthy. -/
def Song.from_data (now : ℚ) (data : RawSong) : Except PyErr Song :=
  let duration := data.duration
  match data.id with
  | none => .error (.keyError keyId)
  | some i =>
    let time_end : Int :=
      match duration with
      | some d => if d = 0 then pyRound now else pyRound (now + (d : ℚ))
      | none => pyRound now
    let title := Song.get_title data
    match Song.get_sources data with
    | .error e => .error e
    | .ok sources =>
      match Song.get_artists data with
      | .error e => .error e
      | .ok artists =>
        match Song.get_albums data with
        | .error e => .error e
        | .ok albums =>
          match Song.get_characters data with
          | .error e => .error e
          | .ok characters =>
            let played : Option Int :=
              match data.played with
              | some p => if p = 0 then none else some p
              | none => none
            let title_romaji : Option (List Char) :=
              match data.titleRomaji with
              | some t => if t = [] then none else some t
              | none => none
            .ok { id := i, title := title, sources := sources,
                  artists := artists, characters := characters,
                  albums := albums, duration := duration,
                  time_end := time_end, played := played,
                  title_romaji := title_romaji }

/-- The accumulation loop of `Song._list_to_string`: for each item resolve the
name (shared expression `resolveName`) and append it when truthy. -/
def listLoop (getN getR : α → Option (List Char)) (romajiFirst : Bool) :
    List α → List (List Char) → List (List Char)
  | [], acc => acc
  | item :: rest, acc =>
    listLoop getN getR romajiFirst rest
      (appendIfTruthy acc (resolveName romajiFirst (getN item) (getR item)))

/-- `Song._list_to_string`: `None` for a falsy list, else the truthy resolved
names joined with `sep`.  The Python function duck-types over
`Artist`/`Source`/`Album`; the embedding takes the two name projections. -/
def Song.list_to_string (getN getR : α → Option (List Char))
    (lst : Option (List α)) (romajiFirst : Bool) (sep : List Char) :
    Option (List Char) :=
  match lst with
  | none => none
  | some l =>
    if l.isEmpty then none
    else some (joinSep sep (listLoop getN getR romajiFirst l []))

/-- `character_map.get(character.id)`: the map is a dict built by inserting
the song's characters in order (a later character with the same id
overwrites an earlier one), so lookup returns the last match. -/
def dictGet (cs : List Character) (k : Int) : Option Character :=
  cs.foldl (fun acc c => if c.id = k then some c else acc) none

/-- The inner `for character in artist.character` loop of
`artists_to_string`: `char_name` is a mutable variable reassigned on every
placeholder found in the map (possibly to `None`), left unchanged otherwise,
and threaded across iterations — the last lookup wins. -/
def charLoop (selfChars : List Character) (romajiFirst : Bool) :
    List Character → Option (List Char) → Option (List Char)
  | [], charName => charName
  | c :: rest, charName =>
    match dictGet selfChars c.id with
    | some ch =>
      charLoop selfChars romajiFirst rest
        (resolveName romajiFirst ch.name ch.name_romaji)
    | none => charLoop selfChars romajiFirst rest charName

/-- The f-string `f'{char_name} (CV: {name})'`. -/
def cvChars (charName name : List Char) : List Char :=
  charName ++ " (CV: ".data ++ name ++ ")".data

/-- The outer `for artist in self.artists` loop of `artists_to_string`,
threading the mutable `char_name` (which the source never resets between
artists) and the accumulated display strings. -/
def artistsLoop (selfChars : Option (List Character)) (romajiFirst : Bool) :
    List Artist → Option (List Char) → List (List Char) → List (List Char)
  | [], _, acc => acc
  | a :: rest, charName, acc =>
    let name := resolveName romajiFirst a.name a.name_romaji
    if optListTruthy selfChars && optListTruthy a.character then
      let charName2 :=
        charLoop (selfChars.getD []) romajiFirst (a.character.getD []) charName
      let acc2 :=
        match name, charName2 with
        | some n, some c => if n = [] ∨ c = [] then acc else acc ++ [cvChars c n]
        | _, _ => acc
      artistsLoop selfChars romajiFirst rest charName2 acc2
    else
      artistsLoop selfChars romajiFirst rest charName (appendIfTruthy acc name)

/-- `Song.artists_to_string`: `None` for a falsy artist list, else the
CV-aware display strings joined with `sep`. -/
def Song.artists_to_string (self : Song) (romajiFirst : Bool) (sep : List Char) :
    Option (List Char) :=
  match self.artists with
  | none => none
  | some l =>
    if l = [] then none
    else some (joinSep sep (artistsLoop self.characters romajiFirst l none []))

/-- `Song.sources_to_string`: delegates to `_list_to_string` on the sources. -/
def Song.sources_to_string (self : Song) (romajiFirst : Bool) (sep : List Char) :
    Option (List Char) :=
  Song.list_to_string Source.name Source.name_romaji self.sources romajiFirst sep

/-- `Song.albums_to_string`: delegates to `_list_to_string` on the albums. -/
def Song.albums_to_string (self : Song) (romajiFirst : Bool) (sep : List Char) :
    Option (List Char) :=
  Song.list_to_string Album.name Album.name_romaji self.albums romajiFirst sep

/-- The `for item in lst` loop of `Song._get_image`: every path through the
loop body leaves the loop on the first item (`break` when the image is
absent, `return` otherwise), so no later item is ever examined; falling out
of the loop returns `None`. -/
def imageLoop (img : α → Option Link) (url : Bool) : List α → Option (List Char)
  | [] => none
  | item :: _ =>
    match img item with
    | none => none
    | some l => some (if url then l.url else l.name)

/-- `Song._get_image`: `None` for a falsy list, else the first-gap-stops scan
of the loop.  Duck-typed over `Artist`/`Source`/`Album` via the image
projection. -/
def Song.get_image (img : α → Option Link) (lst : Option (List α)) (url : Bool) :
    Option (List Char) :=
  match lst with
  | none => none
  | some l => if l.isEmpty then none else imageLoop img url l

/-- `Song.artist_image`. -/
def Song.artist_image (self : Song) (url : Bool) : Option (List Char) :=
  Song.get_image Artist.image self.artists url

/-- `Song.source_image`. -/
def Song.source_image (self : Song) (url : Bool) : Option (List Char) :=
  Song.get_image Source.image self.sources url

/-- `Song.album_image`. -/
def Song.album_image (self : Song) (url : Bool) : Option (List Char) :=
  Song.get_image Album.image self.albums url

/-- Modelled from the spec: the display-name fallback chain of section 4.4,
"romanized name if present and preferred, else localized name, else the
other if the preferred one is absent" — symmetric fallback in both
directions, used only to compare against the source's `resolveName`. -/
def specResolveName (romajiFirst : Bool) (name name_romaji : Option (List Char)) :
    Option (List Char) :=
  if romajiFirst then
    match name_romaji with
    | some r => some r
    | none => name
  else
    match name with
    | some n => some n
    | none => name_romaji

/-- The per-character action of sanitization as the spec states it: drop
U+200B, map U+3099 to U+309B, map U+309A to U+309C, keep everything else. -/
def sanChar (c : Char) : Option Char :=
  if c = zwsp then none
  else if c = combVoiced then some spacingVoiced
  else if c = combSemi then some spacingSemi
  else some c

theorem sanChar_eq_none_iff (c : Char) : sanChar c = none ↔ c = zwsp := by
  unfold sanChar
  split_ifs with h0 h1 h2 <;> simp_all

theorem sanChar_clean {c d : Char} (h : sanChar c = some d) :
    d ≠ zwsp ∧ d ≠ combVoiced ∧ d ≠ combSemi := by
  unfold sanChar at h
  split_ifs at h with h0 h1 h2 <;> injection h with h <;> subst h
  · exact ⟨by decide, by decide, by decide⟩
  · exact ⟨by decide, by decide, by decide⟩
  · exact ⟨h0, h1, h2⟩

/-- The three-pass sanitization body (`replace`, `replace`, `replace`-to-empty)
computes the single-pass per-character substitution `sanChar`. -/
theorem sanitise_core_eq_filterMap (w : List Char) :
    pyRemove zwsp (pyReplace combSemi spacingSemi
      (pyReplace combVoiced spacingVoiced w)) = w.filterMap sanChar := by
  induction w with
  | nil => rfl
  | cons c t ih =>
    by_cases h1 : c = combVoiced
    · subst h1
      simpa [pyReplace, pyRemove, sanChar, List.filter_cons,
        show spacingVoiced ≠ combSemi by decide,
        show spacingVoiced ≠ zwsp by decide,
        show combVoiced ≠ zwsp by decide] using ih
    · by_cases h2 : c = combSemi
      · subst h2
        simpa [pyReplace, pyRemove, sanChar, List.filter_cons,
          show combSemi ≠ combVoiced by decide,
          show spacingSemi ≠ zwsp by decide,
          show combSemi ≠ zwsp by decide] using ih
      · by_cases h3 : c = zwsp
        · subst h3
          simpa [pyReplace, pyRemove, sanChar, List.filter_cons,
            show zwsp ≠ combVoiced by decide,
            show zwsp ≠ combSemi by decide] using ih
        · simpa [pyReplace, pyRemove, sanChar, h1, h2, h3, List.filter_cons] using ih

theorem filterMap_sanChar_clean (s : List Char) :
    ∀ c ∈ s.filterMap sanChar, c ≠ zwsp ∧ c ≠ combVoiced ∧ c ≠ combSemi := by
  intro c hc
  rcases List.mem_filterMap.mp hc with ⟨d, _, hd⟩
  exact sanChar_clean hd

theorem filterMap_sanChar_fixed (t : List Char)
    (h : ∀ c ∈ t, c ≠ zwsp ∧ c ≠ combVoiced ∧ c ≠ combSemi) :
    t.filterMap sanChar = t := by
  induction t with
  | nil => rfl
  | cons c r ih =>
    obtain ⟨h0, h1, h2⟩ := h c (List.mem_cons_self c r)
    simp [List.filterMap_cons, sanChar, h0, h1, h2,
      ih fun x hx => h x (List.mem_cons_of_mem c hx)]

theorem sanitise_some_of_ne_nil (s : List Char) (hs : s ≠ []) :
    Song.sanitise (some s) = some (s.filterMap sanChar) := by
  simp [Song.sanitise, hs, sanitise_core_eq_filterMap]

/-- Claim C2 fails as stated: a non-empty string of only zero-width spaces
sanitizes to the (present) empty string, whose own sanitization is absent. -/
theorem C2_counterexample :
    Song.sanitise (Song.sanitise (some [zwsp])) ≠ Song.sanitise (some [zwsp]) := by
  decide

/-- C2 (amended): sanitization is idempotent on absent inputs and on every
string that is empty or contains at least one character other than U+200B
(equivalently, whenever the first pass does not collapse a non-empty string
to the empty string). -/
theorem C2_sanitise_idempotent (x : Option (List Char))
    (h : ∀ s, x = some s → s = [] ∨ ∃ c ∈ s, c ≠ zwsp) :
    Song.sanitise (Song.sanitise x) = Song.sanitise x := by
  match x with
  | none => rfl
  | some s =>
    rcases h s rfl with rfl | ⟨c, hc, hcz⟩
    · rfl
    · have hs : s ≠ [] := by rintro rfl; simp at hc
      rw [sanitise_some_of_ne_nil s hs]
      have ht : s.filterMap sanChar ≠ [] := by
        intro hnil
        rcases List.filterMap_eq_nil_iff.mp hnil c hc with hn
        exact hcz ((sanChar_eq_none_iff c).mp hn)
      rw [sanitise_some_of_ne_nil _ ht,
        filterMap_sanChar_fixed _ (filterMap_sanChar_clean s)]

/-- Witness for C2: sanitization is idempotent at the concrete string "a". -/
theorem C2_witness :
    Song.sanitise (Song.sanitise (some "a".data)) = Song.sanitise (some "a".data) :=
  C2_sanitise_idempotent (some "a".data) (by intro s hs; injection hs with hs; subst hs; decide)

/-- Claim C8 fails as stated on the empty string: the truthiness check
`if not word` sends the present empty string to absent, not to a present
string. -/
theorem C8_counterexample : Song.sanitise (some []) = none := rfl

/-- C8 (amended): sanitize passes absent through unchanged, maps the (present)
empty string to absent, and maps every non-empty string to the present string
obtained exactly by replacing each U+3099 with U+309B, each U+309A with
U+309C and dropping each U+200B (the per-character substitution `sanChar`);
the result therefore contains no U+200B, U+3099 or U+309A. -/
theorem C8_sanitise_spec (s : List Char) (h : s ≠ []) :
    Song.sanitise none = none ∧
    Song.sanitise (some []) = none ∧
    Song.sanitise (some s) = some (s.filterMap sanChar) ∧
    ∀ c ∈ s.filterMap sanChar, c ≠ zwsp ∧ c ≠ combVoiced ∧ c ≠ combSemi :=
  ⟨rfl, rfl, sanitise_some_of_ne_nil s h, filterMap_sanChar_clean s⟩

/-- Witness for C8 at the concrete string "a゙​". -/
theorem C8_witness :
    Song.sanitise none = none ∧
    Song.sanitise (some []) = none ∧
    Song.sanitise (some ['a', combVoiced, zwsp])
      = some (['a', combVoiced, zwsp].filterMap sanChar) ∧
    ∀ c ∈ ['a', combVoiced, zwsp].filterMap sanChar,
      c ≠ zwsp ∧ c ≠ combVoiced ∧ c ≠ combSemi :=
  C8_sanitise_spec ['a', combVoiced, zwsp] (by decide)

theorem pyRound_sub_abs (x : ℚ) : |(pyRound x : ℚ) - x| ≤ 1/2 := by
  have h1 : (⌊x⌋ : ℚ) ≤ x := Int.floor_le x
  have h2 : x < ⌊x⌋ + 1 := Int.lt_floor_add_one x
  unfold pyRound
  split_ifs with ha hb hc <;>
    (rw [abs_le]; constructor) <;> push_cast <;> linarith

theorem pyRound_sub_abs_one (x : ℚ) : |(pyRound x : ℚ) - x| ≤ 1 :=
  le_trans (pyRound_sub_abs x) (by norm_num)

/-- Inversion of a successful normalization: the record has an id, every
sub-entity getter succeeded, and the scalar fields of the resulting song are
the ones computed in `from_data`. -/
theorem from_data_ok_fields (now : ℚ) (data : RawSong) (s : Song)
    (h : Song.from_data now data = .ok s) :
    s.duration = data.duration ∧
    s.time_end = (match data.duration with
      | some d => if d = 0 then pyRound now else pyRound (now + (d : ℚ))
      | none => pyRound now) ∧
    s.played = (match data.played with
      | some p => if p = 0 then none else some p
      | none => none) := by
  unfold Song.from_data at h
  repeat' split at h
  all_goals (try simp_all)
  all_goals (subst h; try simp_all)

/-- A raw record with a song id whose single artist sub-record lacks the
`characters` key. -/
def recC1 : RawSong :=
  { id := some 1,
    artists := some [{ id := some 2, name := some "A".data }] }

/-- Claim C1: the claim is right and the code is wrong.  A record that has a
song id but whose artist sub-record lacks the `characters` key does not
normalize to an `Artist` with an absent character list: `_get_artists`
evaluates `len(artist.get('characters'))` on `None` and raises TypeError,
so normalization of `recC1` fails instead of degrading gracefully. -/
theorem C1_absent_characters_raises :
    recC1.id = some 1 ∧ Song.from_data 0 recC1 = .error PyErr.typeError :=
  ⟨rfl, by with_unfolding_all decide⟩

/-- A raw record with play count 0. -/
def recC4 : RawSong := { id := some 1, played := some 0 }

/-- Claim C4 fails as stated: a record with play count 0 normalizes to a Song
with an absent play count, because `from_data` attaches `played` only when
the walrus-truthiness test `if (p := data.get('played', None)):` passes. -/
theorem C4_counterexample :
    recC4.played = some 0 ∧
    Except.map Song.played (Song.from_data 0 recC4) = .ok none :=
  ⟨rfl, by with_unfolding_all decide⟩

/-- C4 (amended): normalize carries the play count through unchanged exactly
when it is present and non-zero; a record without a play count, or with play
count 0, yields a Song with an absent play count. -/
theorem C4_played (now : ℚ) (data : RawSong) (s : Song)
    (h : Song.from_data now data = .ok s) :
    s.played = (match data.played with
      | some p => if p = 0 then none else some p
      | none => none) :=
  (from_data_ok_fields now data s h).2.2

/-- A raw record with play count 7 and its normalization at time 0. -/
def recC4w : RawSong := { id := some 1, played := some 7 }

/-- The song `recC4w` normalizes to at time 0. -/
def songC4w : Song :=
  { id := 1, title := none, sources := none, artists := none,
    characters := none, albums := none, duration := none, time_end := 0,
    played := some 7 }

/-- Witness for C4 at the concrete record with play count 7. -/
theorem C4_witness :
    songC4w.played = (match recC4w.played with
      | some p => if p = 0 then none else some p
      | none => none) :=
  C4_played 0 recC4w songC4w (by with_unfolding_all decide)

/-- A raw record with a song id whose source sub-record lacks its own id. -/
def recC5 : RawSong :=
  { id := some 1, sources := some [{ name := some "S".data }] }

/-- Claim C5 fails as stated ("exactly when"): normalization of `recC5` fails
with the MissingField error (KeyError on `'id'`) even though the raw record
does have a song identifier — the missing id is the source sub-record's. -/
theorem C5_counterexample :
    recC5.id = some 1 ∧ Song.from_data 0 recC5 = .error (.keyError keyId) :=
  ⟨rfl, by with_unfolding_all decide⟩

/-- C5 (amended): whenever the raw record lacks a song identifier,
normalization fails with the MissingField error (KeyError on `'id'`), and no
Song is returned (the result is an error, not a partial entity); such a
failure can, however, also occur for records that do have a song identifier
when a sub-record lacks its own id. -/
theorem C5_missing_id (now : ℚ) (data : RawSong) (h : data.id = none) :
    Song.from_data now data = .error (.keyError keyId) := by
  unfold Song.from_data
  rw [h]

/-- The empty raw record. -/
def recC5w : RawSong := {}

/-- Witness for C5 at the empty record. -/
theorem C5_witness : Song.from_data 0 recC5w = .error (.keyError keyId) :=
  C5_missing_id 0 recC5w rfl

/-- Claim C7: if `duration` is present with value `d`, the normalized song's
expiry is the wall-clock time at normalization plus `d`, rounded to whole
seconds (hence within 1 second of `now + d`); if `duration` is absent, the
expiry is the current time rounded to whole seconds (within 1 second of
`now`).  A present duration of 0 takes the truthiness else-branch in the
source, but `round(now + 0) = round(now)`, so the claim's description holds
for it as well. -/
theorem C7_expiry (now : ℚ) (data : RawSong) (s : Song)
    (h : Song.from_data now data = .ok s) :
    (∀ d : Int, data.duration = some d →
      s.time_end = pyRound (now + (d : ℚ)) ∧
      |(s.time_end : ℚ) - (now + (d : ℚ))| ≤ 1) ∧
    (data.duration = none →
      s.time_end = pyRound now ∧ |(s.time_end : ℚ) - now| ≤ 1) := by
  obtain ⟨-, hte, -⟩ := from_data_ok_fields now data s h
  constructor
  · intro d hd
    rw [hd] at hte
    by_cases hz : d = 0
    · subst hz
      simp only [if_pos rfl] at hte
      have hnz : now + ((0 : Int) : ℚ) = now := by push_cast; ring
      rw [hnz, hte]
      exact ⟨rfl, pyRound_sub_abs_one now⟩
    · simp only [if_neg hz] at hte
      rw [hte]
      exact ⟨rfl, pyRound_sub_abs_one _⟩
  · intro hd
    rw [hd] at hte
    rw [hte]
    exact ⟨rfl, pyRound_sub_abs_one now⟩

/-- A raw record with duration 120 seconds. -/
def recC7 : RawSong := { id := some 1, duration := some 120 }

/-- The song `recC7` normalizes to at time 1000. -/
def songC7 : Song :=
  { id := 1, title := none, sources := none, artists := none,
    characters := none, albums := none, duration := some 120,
    time_end := 1120 }

set_option maxRecDepth 10000 in
/-- Witness for C7: normalizing the record with duration 120 at time 1000
yields expiry `round(1000 + 120) = 1120`, within 1 second of 1120. -/
theorem C7_witness :
    songC7.time_end = pyRound (1000 + ((120 : Int) : ℚ)) ∧
    |(songC7.time_end : ℚ) - (1000 + ((120 : Int) : ℚ))| ≤ 1 :=
  (C7_expiry 1000 recC7 songC7 (by with_unfolding_all decide)).1 120 rfl

/-- When the song's characters and the artist's placeholders never interact
(every artist has an absent character list), the `artists_to_string` loop
computes exactly the `_list_to_string` loop over the artists. -/
theorem artistsLoop_no_char (selfChars : Option (List Character)) (rf : Bool)
    (l : List Artist) :
    ∀ charName acc, (∀ a ∈ l, a.character = none) →
      artistsLoop selfChars rf l charName acc
        = listLoop Artist.name Artist.name_romaji rf l acc := by
  induction l with
  | nil =>
    intro cn acc _
    rfl
  | cons a rest ih =>
    intro cn acc h
    have ha := h a (List.mem_cons_self a rest)
    simp only [artistsLoop, listLoop, ha, optListTruthy, Bool.and_false,
      Bool.false_eq_true, if_false]
    exact ih _ _ fun x hx => h x (List.mem_cons_of_mem a hx)

/-- Claim C3 fails as stated: with the localized-name preference
(`romaji_first = False`) there is no fallback to the romanized name.  A
source with an absent localized name and romanized name "R" is skipped by
`sources_to_string` (yielding the empty joined string), while the claimed
fallback chain (`specResolveName`, modelled from the spec) resolves "R". -/
theorem C3_counterexample :
    Song.sources_to_string
        { id := 6, title := none,
          sources := some [{ id := 5, name := none,
                             name_romaji := some "R".data, image := none }],
          artists := none, characters := none, albums := none,
          duration := none, time_end := 0 } false ", ".data = some [] ∧
    specResolveName false none (some "R".data) = some "R".data ∧
    ("R".data : List Char) ≠ [] :=
  ⟨by decide, by decide, by decide⟩

/-- C3 (amended): the resolved display name is the romanized name when
romanized is preferred and present (falling back to the localized name),
but with the localized preference it is the localized name only — there is
no fallback to the romanized name when the localized one is absent.  This
resolution rule is the single expression `resolveName`, used identically by
`sources_to_string`, `albums_to_string` (via `_list_to_string`) and, for
artists without character relationships, by `artists_to_string`. -/
theorem C3_resolution_shared (s : Song) (rf : Bool) (sep : List Char)
    (n nr : Option (List Char)) (l : List Artist)
    (hl : s.artists = some l) (hc : ∀ a ∈ l, a.character = none) :
    resolveName true n nr = (if optListTruthy nr then nr else n) ∧
    resolveName false n nr = n ∧
    Song.sources_to_string s rf sep
      = Song.list_to_string Source.name Source.name_romaji s.sources rf sep ∧
    Song.albums_to_string s rf sep
      = Song.list_to_string Album.name Album.name_romaji s.albums rf sep ∧
    Song.artists_to_string s rf sep
      = Song.list_to_string Artist.name Artist.name_romaji (some l) rf sep := by
  refine ⟨rfl, rfl, rfl, rfl, ?_⟩
  unfold Song.artists_to_string Song.list_to_string
  rw [hl]
  cases l with
  | nil => rfl
  | cons a rest =>
    simp only [List.isEmpty_cons, Bool.false_eq_true, if_false,
      if_neg (List.cons_ne_nil a rest)]
    rw [artistsLoop_no_char s.characters rf (a :: rest) none [] hc]

/-- The song used in the C3 witness: two artists with no voice roles. -/
def songC3w : Song :=
  { id := 7, title := none, sources := none,
    artists := some
      [{ id := 8, name := some "X".data, name_romaji := none, image := none,
         character := none },
       { id := 9, name := none, name_romaji := some "Y".data, image := none,
         character := none }],
    characters := none, albums := none, duration := none, time_end := 0 }

/-- Witness for C3 at a concrete song whose artists have no voice roles. -/
theorem C3_witness :
    resolveName true (some "L".data) (none : Option (List Char))
      = (if optListTruthy (none : Option (List Char)) then none
         else some "L".data) ∧
    resolveName false (some "L".data) (none : Option (List Char))
      = some "L".data ∧
    Song.sources_to_string songC3w false ", ".data
      = Song.list_to_string Source.name Source.name_romaji songC3w.sources
          false ", ".data ∧
    Song.albums_to_string songC3w false ", ".data
      = Song.list_to_string Album.name Album.name_romaji songC3w.albums
          false ", ".data ∧
    Song.artists_to_string songC3w false ", ".data
      = Song.list_to_string Artist.name Artist.name_romaji
          (some (songC3w.artists.getD [])) false ", ".data :=
  C3_resolution_shared songC3w false ", ".data (some "L".data) none
    (songC3w.artists.getD []) rfl (by decide)

/-- Claim C6: `_get_image` returns the first entry's image name or URL and
returns absent as soon as the scan meets an entry without an image — no
later entry is ever consulted — and absent for an absent or empty list; in
particular the album list [no image, image "cover"] yields absent. -/
theorem C6_primary_image {α : Type} (img : α → Option Link)
    (l : Option (List α)) (url : Bool) :
    Song.get_image img l url
      = (((l.bind fun xs => xs.head?).bind img).map fun i =>
          if url then i.url else i.name) ∧
    Song.get_image Album.image
      (some [{ id := 1, name := none, name_romaji := none, image := none },
             { id := 2, name := none, name_romaji := none,
               image := Link.from_name .albums (some "cover".data) }]) url
      = none := by
  constructor
  · cases l with
    | none => rfl
    | some xs =>
      cases xs with
      | nil => rfl
      | cons x r =>
        cases hx : img x with
        | none => simp [Song.get_image, imageLoop, hx]
        | some li => simp [Song.get_image, imageLoop, hx]
  · rfl

/-- The song of the spec's `artists_display` acceptance example. -/
def songC9 : Song :=
  { id := 10, title := none, sources := none,
    artists := some
      [{ id := 1, name := some "A".data, name_romaji := none, image := none,
         character := none },
       { id := 2, name := some "B".data, name_romaji := none, image := none,
         character := some [{ id := 1 }] }],
    characters := some [{ id := 1, name := some "C".data }],
    albums := none, duration := none, time_end := 0 }

/-- Claim C9: for artists [A, B(voices character 1)] and song characters
[1 ↦ C], `artists_to_string` with the localized preference and separator
", " resolves the placeholder through the id→Character map and emits
"A, C (CV: B)". -/
theorem C9_cv_pairing :
    Song.artists_to_string songC9 false ", ".data = some "A, C (CV: B)".data := by
  decide

/-- If every artist's resolved name is absent, the `artists_to_string` loop
appends nothing, whatever the threaded `char_name` state is. -/
theorem artistsLoop_all_skipped (selfChars : Option (List Character))
    (rf : Bool) (l : List Artist) :
    ∀ charName acc, (∀ a ∈ l, resolveName rf a.name a.name_romaji = none) →
      artistsLoop selfChars rf l charName acc = acc := by
  induction l with
  | nil =>
    intro cn acc _
    rfl
  | cons a rest ih =>
    intro cn acc h
    have ha := h a (List.mem_cons_self a rest)
    simp only [artistsLoop, ha, appendIfTruthy]
    split
    · exact ih _ _ fun x hx => h x (List.mem_cons_of_mem a hx)
    · exact ih _ _ fun x hx => h x (List.mem_cons_of_mem a hx)

/-- Claim C10: when the artist list is present and non-empty but every
entry's resolved name is absent, `artists_to_string` returns the present
empty string (the empty join), not absent; absent is returned exactly for an
absent or empty artist list. -/
theorem C10_empty_join (s : Song) (rf : Bool) (sep : List Char) :
    (∀ l, s.artists = some l → l ≠ [] →
      (∀ a ∈ l, resolveName rf a.name a.name_romaji = none) →
      Song.artists_to_string s rf sep = some []) ∧
    (s.artists = none ∨ s.artists = some [] →
      Song.artists_to_string s rf sep = none) := by
  constructor
  · intro l hl hne h
    simp only [Song.artists_to_string, hl]
    rw [if_neg hne, artistsLoop_all_skipped s.characters rf l none [] h]
    rfl
  · rintro (hl | hl) <;> simp [Song.artists_to_string, hl]

/-- The song used in the C10 witness: one artist, both name fields giving an
absent resolved name under the localized preference. -/
def songC10 : Song :=
  { id := 3, title := none, sources := none,
    artists := some [{ id := 4, name := none, name_romaji := some "R".data,
                       image := none, character := none }],
    characters := none, albums := none, duration := none, time_end := 0 }

/-- Witness for C10: the concrete one-artist song whose only entry is
skipped displays as the present empty string. -/
theorem C10_witness : Song.artists_to_string songC10 false ", ".data = some [] :=
  (C10_empty_join songC10 false ", ".data).1
    [{ id := 4, name := none, name_romaji := some "R".data, image := none,
       character := none }] rfl (by decide) (by decide)
